import Mathlib

/-!
Shallow embedding of the AutomationAgents repository (src/agents/base_agent.py,
gmail_agent.py, notion_agent.py, spotify_agent.py).

Remote providers (Ollama, Gmail, Notion, Spotify) are modelled as environment
records whose fields give, for each primitive provider call, either the
normalized payload the Python code extracts from the provider response
(`Except.ok`) or the message of the exception that call raised (`Except.error`).
Python `try/except` blocks become `match` on these `Except` values; the byte
payload details the code immediately projects away (JSON field access,
base64 decoding) are folded into the normalized records, as noted per field.

Calls to side-effecting / counted provider primitives are logged in a
`List SpCall` trace threaded through the Spotify operations, so that
"primitive X is never invoked" claims become statements about the trace.
-/

namespace AutomationAgents

/-- Equality of `Except` values is decidable when it is on both sides. -/
instance exceptDecEq {ε α : Type} [DecidableEq ε] [DecidableEq α] :
    DecidableEq (Except ε α) := fun a b =>
  match a, b with
  | .ok x, .ok y =>
    if h : x = y then .isTrue (by rw [h]) else .isFalse (by intro hc; cases hc; exact h rfl)
  | .error x, .error y =>
    if h : x = y then .isTrue (by rw [h]) else .isFalse (by intro hc; cases hc; exact h rfl)
  | .ok _, .error _ => .isFalse (by intro hc; cases hc)
  | .error _, .ok _ => .isFalse (by intro hc; cases hc)

/-! ### Python string primitives used by the agents -/

/-- Python `str.lstrip`-style: drop leading characters satisfying `p`. -/
def lstripBy (p : Char → Bool) (l : List Char) : List Char := l.dropWhile p

/-- Python `str.rstrip`-style: drop trailing characters satisfying `p`. -/
def rstripBy (p : Char → Bool) (l : List Char) : List Char :=
  (l.reverse.dropWhile p).reverse

/-- Strip characters satisfying `p` from both ends. -/
def stripBy (p : Char → Bool) (l : List Char) : List Char :=
  rstripBy p (lstripBy p l)

/-- Python `str.strip()` (no argument): strip whitespace from both ends. -/
def pyStrip (l : List Char) : List Char := stripBy Char.isWhitespace l

/-- Python `str.strip(chars)`: strip any character of the set from both ends. -/
def pyStripSet (cs : List Char) (l : List Char) : List Char :=
  stripBy (fun c => cs.contains c) l

/-- Python `str.lstrip(chars)`: strip any character of the set from the left. -/
def pyLstripSet (cs : List Char) (l : List Char) : List Char :=
  lstripBy (fun c => cs.contains c) l

/-- Python `s.split(sep, 1)` combined with the `sep in s` test: locate the first
occurrence of `sep` and return the pieces before and after it, or `none` when
`sep` does not occur. -/
def splitFirst (sep : List Char) : List Char → Option (List Char × List Char)
  | [] => none
  | c :: rest =>
    if sep.isPrefixOf (c :: rest) then some ([], (c :: rest).drop sep.length)
    else
      match splitFirst sep rest with
      | some (a, b) => some (c :: a, b)
      | none => none

/-- Python `s.split(c)` for a single-character separator. -/
def splitOnChar (sep : Char) : List Char → List (List Char)
  | [] => [[]]
  | c :: rest =>
    if c = sep then [] :: splitOnChar sep rest
    else
      match splitOnChar sep rest with
      | h :: t => (c :: h) :: t
      | [] => [[c]]

/-- Python `str.lower()` (ASCII-adequate for the mood keys used here). -/
def pyLower (s : String) : String := ⟨s.data.map Char.toLower⟩

/-- Helper for `pyTitle`: the flag records whether the previous character was
alphabetic. -/
def pyTitleAux : Bool → List Char → List Char
  | _, [] => []
  | prevAlpha, c :: cs =>
    if c.isAlpha then
      (if prevAlpha then c.toLower else c.toUpper) :: pyTitleAux true cs
    else c :: pyTitleAux false cs

/-- Python `str.title()`: first letter of each alphabetic run uppercased, the
rest lowercased. -/
def pyTitle (s : String) : String := ⟨pyTitleAux false s.data⟩

/-! ### AI gateway (base_agent.py `BaseAgent.ask_ai`, notion_agent.py `ask_ai`) -/

/-- Outcome of the `requests.post(.../api/generate, ...)` call: a response with
a status code and the (attempted) extraction of `response.json()['response']`
(`Except.error` when that extraction raises), or an exception raised by the
request itself. -/
inductive HttpOutcome where
  | response (status : Nat) (body : Except String String)
  | exn (msg : String)
deriving Repr, DecidableEq

/-- The Ollama-side state a `BaseAgent` carries: the configured default model
and the behaviour of the generate endpoint, keyed by (model, prompt). -/
structure OllamaEnv where
  defaultModel : String
  post : String → String → HttpOutcome

namespace BaseAgent

/-- base_agent.py `BaseAgent.ask_ai`: returns the model response on HTTP 200,
the string `"AI request failed with status {code}"` on any other status, and
`"AI Error: {e}"` when the request (or the body extraction) raises. -/
def ask_ai (env : OllamaEnv) (prompt : String) (model? : Option String := none) : String :=
  let model := model?.getD env.defaultModel
  match env.post model prompt with
  | .response status body =>
    if status = 200 then
      match body with
      | .ok r => r
      | .error e => "AI Error: " ++ e
    else
      "AI request failed with status " ++ toString status
  | .exn e => "AI Error: " ++ e

/-- base_agent.py `BaseAgent.test_connection`: runs the subclass hook
`_test_service_connection` (whose outcome, value or raised exception, is the
argument) and converts any raised exception to `false`. -/
def test_connection (svc : Except String Bool) : Bool :=
  match svc with
  | .ok b => b
  | .error _ => false

end BaseAgent

/-! ### Gmail agent (gmail_agent.py) -/

/-- The two classes of exception `get_recent_emails` distinguishes: the
`googleapiclient` `HttpError`, and every other exception. -/
inductive GException where
  | httpError (msg : String)
  | other (msg : String)
deriving Repr, DecidableEq

/-- Normalized `users().getProfile()` payload (the fields the code reads). -/
structure GmailProfile where
  emailAddress : String
  messagesTotal : Nat
  threadsTotal : Nat
deriving Repr, DecidableEq

/-- A Gmail message payload: `parts` is `some` exactly when the `'parts'` key
is present (possibly an empty list); each part is (mimeType, decoded body
text); `bodyData` is the decoded `payload['body']['data']` when present.
Base64 decoding is folded in: fields hold the decoded text. -/
structure GmailPayload where
  parts : Option (List (String × String))
  bodyData : Option String
  headers : List (String × String)
deriving Repr, DecidableEq

/-- A fetched Gmail message (fields read by `_extract_email_data`). -/
structure GmailMsg where
  id : String
  payload : GmailPayload
  snippet : String
  labelIds : List String
deriving Repr, DecidableEq

/-- Gmail provider behaviour: profile fetch, message-id listing
(`results.get('messages', [])` is folded in: the provider yields the id list),
and per-id message fetch. -/
structure GmailEnv where
  getProfile : Except GException GmailProfile
  listMessages : Nat → String → Except GException (List String)
  getMessage : String → Except GException GmailMsg

/-- Normalized email record built by `_extract_email_data`. -/
structure EmailData where
  id : String
  subject : String
  sender : String
  date : String
  body : String
  snippet : String
  labels : List String
deriving Repr, DecidableEq

namespace GmailAgent

/-- gmail_agent.py `GmailAgent._extract_body`: first `text/plain` part when
the `'parts'` key exists, else the top-level body data, else `""`. -/
def extract_body (p : GmailPayload) : String :=
  match p.parts with
  | some parts =>
    match parts.find? (fun pr => pr.1 == "text/plain") with
    | some pr => pr.2
    | none => ""
  | none =>
    match p.bodyData with
    | some d => d
    | none => ""

/-- The `next((h['value'] for h in headers if h['name'] == nm), dflt)` idiom. -/
def header_value (headers : List (String × String)) (nm dflt : String) : String :=
  match headers.find? (fun h => h.1 == nm) with
  | some h => h.2
  | none => dflt

/-- gmail_agent.py `GmailAgent._extract_email_data`. -/
def extract_email_data (m : GmailMsg) : EmailData :=
  { id := m.id
    subject := header_value m.payload.headers "Subject" "No Subject"
    sender := header_value m.payload.headers "From" "Unknown"
    date := header_value m.payload.headers "Date" "Unknown"
    body := ⟨(extract_body m.payload).data.take 500⟩
    snippet := m.snippet
    labels := m.labelIds }

/-- The body of the `try` block of `get_recent_emails`: list the message ids,
fetch each message, extract its data; the first raised exception aborts. -/
def get_recent_emails_body (env : GmailEnv) (maxResults : Nat) (query : String) :
    Except GException (List EmailData) :=
  match env.listMessages maxResults query with
  | .error e => .error e
  | .ok msgIds =>
    match msgIds.mapM env.getMessage with
    | .error e => .error e
    | .ok msgs => .ok (msgs.map extract_email_data)

/-- gmail_agent.py `GmailAgent.get_recent_emails`: the `except` clause catches
only `HttpError` (converted to `[]`); any other exception propagates. -/
def get_recent_emails (env : GmailEnv) (maxResults : Nat := 10) (query : String := "") :
    Except GException (List EmailData) :=
  match get_recent_emails_body env maxResults query with
  | .ok es => .ok es
  | .error (GException.httpError _) => .ok []
  | .error e => .error e

/-- Result of gmail_agent.py `GmailAgent.get_status`. -/
inductive GmailStatus where
  | connected (email : String) (totalMessages threadsTotal : Nat)
  | error (msg : String)
deriving Repr, DecidableEq

/-- gmail_agent.py `GmailAgent.get_status`: catches every exception and
returns the `{'status': 'error', ...}` record. -/
def get_status (env : GmailEnv) : GmailStatus :=
  match env.getProfile with
  | .ok p => .connected p.emailAddress p.messagesTotal p.threadsTotal
  | .error (.httpError e) => .error e
  | .error (.other e) => .error e

/-- gmail_agent.py `GmailAgent._test_service_connection`: `true` iff the
profile fetch succeeds; its own `except` swallows every exception. -/
def testServiceConnection (env : GmailEnv) : Bool :=
  match env.getProfile with
  | .ok _ => true
  | .error _ => false

/-- `BaseAgent.test_connection` specialised to the Gmail hook (the hook is
total, so the wrapper always receives a value). -/
def test_connection (env : GmailEnv) : Bool :=
  BaseAgent.test_connection (.ok (testServiceConnection env))

end GmailAgent

/-! ### Notion agent (notion_agent.py) -/

/-- Normalized Notion database record (fields the code reads). -/
structure NotionDB where
  id : String
  title : String
deriving Repr, DecidableEq

/-- Outcome of the `requests.get(.../api/tags)` call in
`test_ollama_connection`: a status plus the (attempted) extraction of the
model-name list `[m['name'] for m in models['models']]`, or a raised
exception. -/
inductive TagsOutcome where
  | response (status : Nat) (models : Except String (List String))
  | exn (msg : String)
deriving Repr, DecidableEq

/-- Notion provider behaviour: the database search call (`notion.search`
filtered to databases) and the Ollama tags endpoint. -/
structure NotionEnv where
  search : Except String (List NotionDB)
  tags : TagsOutcome

namespace NotionAIAgent

/-- notion_agent.py `NotionAIAgent.test_notion_connection`: `true` iff the
database search succeeds; any exception is caught and yields `false`. -/
def test_notion_connection (env : NotionEnv) : Bool :=
  match env.search with
  | .ok _ => true
  | .error _ => false

/-- notion_agent.py `NotionAIAgent.test_ollama_connection`: `true` iff the
tags endpoint answers 200 with a non-empty model list; any other status,
an empty model list, a failed body extraction, or a raised exception all
yield `false`. -/
def test_ollama_connection (env : NotionEnv) : Bool :=
  match env.tags with
  | .response status models =>
    if status = 200 then
      match models with
      | .ok ms => !ms.isEmpty
      | .error _ => false
    else false
  | .exn _ => false

/-- notion_agent.py `NotionAIAgent.get_databases`: search results, or `[]`
when the call raises. -/
def get_databases (env : NotionEnv) : List NotionDB :=
  match env.search with
  | .ok dbs => dbs
  | .error _ => []

/-- notion_agent.py `NotionAIAgent.ask_ai`: like the base gateway but the
non-200 branch returns `"Error: {code}"`. -/
def ask_ai (env : OllamaEnv) (prompt : String) (model : String := "llama2") : String :=
  match env.post model prompt with
  | .response status body =>
    if status = 200 then
      match body with
      | .ok r => r
      | .error e => "AI Error: " ++ e
    else
      "Error: " ++ toString status
  | .exn e => "AI Error: " ++ e

end NotionAIAgent

/-! ### The Agent capability set (spec section 4.2) -/

/-- The capability set of the Agent contract: a connectivity test plus an
optional status query. `getStatus?` is `some` exactly when the class defines
a status operation; `NotionAIAgent` defines none, so its slot is `none`. -/
structure AgentOps (Env : Type) (Status : Type) where
  testConnection : Env → Bool
  getStatus? : Option (Env → Status)

/-! ### Spotify agent (spotify_agent.py) -/

/-- Normalized track record: the fields the code copies out of a provider
track object (`preview_url` is present on search results only; downstream
only `id` flows onward). -/
structure Track where
  id : String
  name : String
  artist : String
  album : String
  durationMs : Nat
  popularity : Nat
deriving Repr, DecidableEq

/-- Normalized `sp.current_user()` payload. -/
structure SpUser where
  id : String
  displayName : String
  followers : Nat
  country : String
  product : Option String
deriving Repr, DecidableEq

/-- The currently playing item of a playback state. -/
structure SpPlaybackItem where
  name : String
  artist : String
deriving Repr, DecidableEq

/-- Normalized `sp.current_playback()` payload (when not `None`). -/
structure SpPlayback where
  item : Option SpPlaybackItem
  isPlaying : Bool
  device : String
deriving Repr, DecidableEq

/-- Normalized successful `create_playlist` result: the dict
`{'id', 'name', 'url', 'description'}` the code builds from the provider
playlist object. The error dict `{'status': 'error', ...}` (which has no
`'id'` key) is the `Except.error` side where this type is used. -/
structure PlaylistInfo where
  id : String
  name : String
  url : String
  description : String
deriving Repr, DecidableEq

/-- One invocation of a Spotify provider primitive, as recorded in the call
trace. -/
inductive SpCall where
  | search (query : String) (limit : Nat)
  | topTracks
  | recommendations (seedTracks seedArtists seedGenres : Option (List String)) (limit : Int)
  | currentUser
  | playlistCreate (userId name : String) (isPublic : Bool) (description : String)
  | addItems (playlistId : String) (trackIds : List String)
deriving Repr, DecidableEq

/-- Spotify provider behaviour plus the agent's Ollama gateway and the
current date string used in playlist names (`datetime.now().strftime`). -/
structure SpotifyEnv where
  ollama : OllamaEnv
  today : String
  currentUser : Except String SpUser
  currentPlayback : Except String (Option SpPlayback)
  search : String → Nat → Except String (List Track)
  topTracks : Except String (List Track)
  recommendations : Option (List String) → Option (List String) → Option (List String) →
    Int → Except String (List Track)
  userPlaylistCreate : String → String → Bool → String → Except String PlaylistInfo
  playlistAddItems : String → List String → Except String Unit

namespace SpotifyAgent

/-- spotify_agent.py `SpotifyAgent._test_service_connection`: `true` iff
`sp.current_user()` succeeds; its own `except` swallows every exception. -/
def testServiceConnection (env : SpotifyEnv) : Bool :=
  match env.currentUser with
  | .ok _ => true
  | .error _ => false

/-- `BaseAgent.test_connection` specialised to the Spotify hook. -/
def test_connection (env : SpotifyEnv) : Bool :=
  BaseAgent.test_connection (.ok (testServiceConnection env))

/-- Result of spotify_agent.py `SpotifyAgent.get_status`: the connected
record (with the optional `currently_playing` sub-record as
(track, artist, is_playing, device)) or the error record. -/
inductive SpotifyStatus where
  | connected (userId displayName : String) (followers : Nat)
      (country subscription : String)
      (currentlyPlaying : Option (String × String × Bool × String))
  | error (msg : String)
deriving Repr, DecidableEq

/-- spotify_agent.py `SpotifyAgent.get_status`: any exception from the two
provider calls yields the error record. -/
def get_status (env : SpotifyEnv) : SpotifyStatus :=
  match env.currentUser with
  | .error e => .error e
  | .ok user =>
    match env.currentPlayback with
    | .error e => .error e
    | .ok pb? =>
      let cp := pb?.map (fun pb =>
        ((match pb.item with | some it => it.name | none => "Unknown"),
         (match pb.item with | some it => it.artist | none => "Unknown"),
         pb.isPlaying, pb.device))
      .connected user.id user.displayName user.followers user.country
        (user.product.getD "free") cp

/-- spotify_agent.py `SpotifyAgent.search_tracks`: provider results, or `[]`
when the call raises; the provider search primitive is invoked exactly once
either way. -/
def search_tracks (env : SpotifyEnv) (query : String) (limit : Nat := 10) :
    List Track × List SpCall :=
  match env.search query limit with
  | .ok ts => (ts, [.search query limit])
  | .error _ => ([], [.search query limit])

/-- Python truthiness of an optional seed list (`None` and `[]` are falsy). -/
def seedTruthy : Option (List String) → Bool
  | some (_ :: _) => true
  | _ => false

/-- spotify_agent.py `SpotifyAgent.get_recommendations`: when no seed is
truthy, first fetch the user's top tracks as seed tracks (a raised exception
there aborts the whole call to `[]`); then invoke the recommendations
primitive, converting a raised exception to `[]`. -/
def get_recommendations (env : SpotifyEnv)
    (seedTracks seedArtists seedGenres : Option (List String) := none)
    (limit : Int := 20) : List Track × List SpCall :=
  if seedTruthy seedTracks || seedTruthy seedArtists || seedTruthy seedGenres then
    match env.recommendations seedTracks seedArtists seedGenres limit with
    | .ok ts => (ts, [.recommendations seedTracks seedArtists seedGenres limit])
    | .error _ => ([], [.recommendations seedTracks seedArtists seedGenres limit])
  else
    match env.topTracks with
    | .error _ => ([], [.topTracks])
    | .ok tops =>
      let st := some (tops.map (fun t => t.id))
      match env.recommendations st seedArtists seedGenres limit with
      | .ok ts => (ts, [.topTracks, .recommendations st seedArtists seedGenres limit])
      | .error _ => ([], [.topTracks, .recommendations st seedArtists seedGenres limit])

/-- spotify_agent.py `SpotifyAgent.create_playlist`: fetch the user id, then
create the playlist; a raised exception at either step yields the error
record (which carries no playlist id). -/
def create_playlist (env : SpotifyEnv) (name : String) (description : String := "")
    (isPublic : Bool := false) : Except String PlaylistInfo × List SpCall :=
  match env.currentUser with
  | .error e => (.error e, [.currentUser])
  | .ok user =>
    match env.userPlaylistCreate user.id name isPublic description with
    | .error e => (.error e, [.currentUser, .playlistCreate user.id name isPublic description])
    | .ok p => (.ok p, [.currentUser, .playlistCreate user.id name isPublic description])

/-- spotify_agent.py `SpotifyAgent.add_tracks_to_playlist`: `true` iff the
provider add call succeeds; a raised exception yields `false`. -/
def add_tracks_to_playlist (env : SpotifyEnv) (playlistId : String)
    (trackIds : List String) : Bool × List SpCall :=
  match env.playlistAddItems playlistId trackIds with
  | .ok _ => (true, [.addItems playlistId trackIds])
  | .error _ => (false, [.addItems playlistId trackIds])

/-- spotify_agent.py `_get_genre_recommendations`'s `genre_map` literal. -/
def genre_map : List (String × List String) :=
  [("happy", ["pop", "dance", "funk"]),
   ("sad", ["indie", "blues", "singer-songwriter"]),
   ("energetic", ["rock", "electronic", "hip-hop"]),
   ("chill", ["ambient", "jazz", "indie-folk"]),
   ("focus", ["classical", "ambient", "instrumental"])]

/-- `genre_map.get(mood.lower(), ['pop'])`. -/
def moodGenres (mood : String) : List String :=
  match genre_map.find? (fun g => g.1 == pyLower mood) with
  | some g => g.2
  | none => ["pop"]

/-- spotify_agent.py `SpotifyAgent._get_genre_recommendations`: fetch
recommendations seeded by the mood's genres and keep the ids. -/
def getGenreRecommendations (env : SpotifyEnv) (mood : String) (limit : Int) :
    List String × List SpCall :=
  let r := get_recommendations env none none (some (moodGenres mood)) limit
  (r.1.map (fun t => t.id), r.2)

/-- The f-string prompt of `_get_ai_track_suggestions`, whitespace included. -/
def moodPrompt (mood : String) : String :=
  "\n        Create a list of music recommendations for someone feeling " ++ mood ++
  ".\n        Provide 10-15 song suggestions in this format:\n        - \"Song Name\" by Artist Name\n        Focus on songs that match the " ++
  mood ++ " mood. Include a mix of popular and lesser-known tracks.\n        "

/-- The second bullet marker of `startswith(('-', ...))` as it stands in the
source file: the three characters U+201A, U+00C4, U+00A2. -/
def bulletSeq : List Char := [Char.ofNat 0x201A, Char.ofNat 0xC4, Char.ofNat 0xA2]

/-- The character set of `lstrip('-...')`: a dash plus the marker characters. -/
def bulletStripSet : List Char := '-' :: bulletSeq

/-- The test `line.strip().startswith(('-', marker))`. -/
def startsMarker (l : List Char) : Bool :=
  ['-'].isPrefixOf l || bulletSeq.isPrefixOf l

/-- The separator `' by '`. -/
def sepBy : List Char := [' ', 'b', 'y', ' ']

/-- The loop body of `_get_ai_track_suggestions` for one line of AI output:
ids contributed (at most one) and provider calls issued (at most one
search). -/
def suggestLine (env : SpotifyEnv) (line : String) : List String × List SpCall :=
  let stripped := pyStrip line.data
  if startsMarker stripped then
    let songInfo := pyStrip (pyLstripSet bulletStripSet stripped)
    match splitFirst sepBy songInfo with
    | some (sn, ar) =>
      let songName := pyStripSet ['"'] (pyStrip sn)
      let artist := pyStrip ar
      let query : String := ⟨songName ++ ' ' :: artist⟩
      let r := search_tracks env query 1
      match r.1 with
      | t :: _ => ([t.id], r.2)
      | [] => ([], r.2)
    | none => ([], [])
  else ([], [])

/-- The `for line in lines` loop of `_get_ai_track_suggestions`: ids and
calls of each line, in order. -/
def suggestLines (env : SpotifyEnv) : List String → List String × List SpCall
  | [] => ([], [])
  | line :: rest =>
    let r := suggestLine env line
    let r' := suggestLines env rest
    (r.1 ++ r'.1, r.2 ++ r'.2)

/-- spotify_agent.py `SpotifyAgent._get_ai_track_suggestions`: ask the AI for
suggestions, split the answer on newlines, and run the parsing loop. -/
def getAiTrackSuggestions (env : SpotifyEnv) (mood : String) :
    List String × List SpCall :=
  let aiSuggestions := BaseAgent.ask_ai env.ollama (moodPrompt mood)
  suggestLines env ((splitOnChar '\n' aiSuggestions.data).map (fun l => (⟨l⟩ : String)))

/-- The Stage-2 dedup loop: append each recommended id not already present
(membership is tested against the growing list). -/
def dedupAppend (acc : List String) (recs : List String) : List String :=
  recs.foldl (fun a r => if r ∈ a then a else a ++ [r]) acc

/-- Stages 1-2 of `create_mood_playlist`: AI suggestions, then — only when
they number fewer than 10 — genre recommendations for
`needed = limit - count`, appended with cross-source dedup. -/
def moodTrackIds (env : SpotifyEnv) (mood : String) (limit : Nat) :
    List String × List SpCall :=
  let r := getAiTrackSuggestions env mood
  if r.1.length < 10 then
    let needed : Int := (limit : Int) - r.1.length
    let g := getGenreRecommendations env mood needed
    (dedupAppend r.1 g.1, r.2 ++ g.2)
  else r

/-- `f"{mood.title()} Vibes - {datetime.now().strftime('%Y-%m-%d')}"`. -/
def moodPlaylistName (env : SpotifyEnv) (mood : String) : String :=
  pyTitle mood ++ " Vibes - " ++ env.today

/-- `f"AI-generated playlist for a {mood} mood."`. -/
def moodPlaylistDescription (mood : String) : String :=
  "AI-generated playlist for a " ++ mood ++ " mood."

/-- Outcome of `create_mood_playlist`: the playlist dict extended with the
`tracks_added` count, or an error dict. -/
inductive MoodOutcome where
  | created (info : PlaylistInfo) (tracksAdded : Nat)
  | failure (error : String)
deriving Repr, DecidableEq

/-- spotify_agent.py `SpotifyAgent.create_mood_playlist`: Stages 1-2 via
`moodTrackIds`; the `'No tracks found'` error when they yield nothing; then
playlist creation (an error record, having no `'id'` key, is returned as is);
then one batch add of the first `limit` ids, whose success or failure is
ignored, and `tracks_added` is the number of ids attempted. -/
def create_mood_playlist (env : SpotifyEnv) (mood : String) (limit : Nat := 20) :
    MoodOutcome × List SpCall :=
  let r := moodTrackIds env mood limit
  if r.1.isEmpty then
    (.failure "No tracks found", r.2)
  else
    let c := create_playlist env (moodPlaylistName env mood) (moodPlaylistDescription mood)
    match c.1 with
    | .error e => (.failure e, r.2 ++ c.2)
    | .ok info =>
      let finalTracks := r.1.take limit
      let a := add_tracks_to_playlist env info.id finalTracks
      (.created info finalTracks.length, r.2 ++ c.2 ++ a.2)

end SpotifyAgent

/-! ### Call-trace projections -/

/-- Is this call an invocation of the recommendations primitive? -/
def isRecCall : SpCall → Bool
  | .recommendations _ _ _ _ => true
  | _ => false

/-- Is this call an invocation of the playlist-add primitive? -/
def isAddCall : SpCall → Bool
  | .addItems _ _ => true
  | _ => false

/-- The recommendations-primitive invocations of a trace. -/
def recCallsOf (t : List SpCall) : List SpCall := t.filter isRecCall

/-- The playlist-add invocations of a trace. -/
def addCallsOf (t : List SpCall) : List SpCall := t.filter isAddCall

/-! ### Capability records of the three variants -/

/-- The Mail variant: `test_connection` from the base class plus
`get_status`. -/
def gmailAgentOps : AgentOps GmailEnv GmailAgent.GmailStatus :=
  { testConnection := GmailAgent.test_connection
    getStatus? := some GmailAgent.get_status }

/-- The MusicStreaming variant: `test_connection` plus `get_status`. -/
def spotifyAgentOps : AgentOps SpotifyEnv SpotifyAgent.SpotifyStatus :=
  { testConnection := SpotifyAgent.test_connection
    getStatus? := some SpotifyAgent.get_status }

/-- The Workspace variant: `NotionAIAgent` does not subclass `BaseAgent` and
defines no status operation at all, so its status slot is empty; its
connectivity test is `test_notion_connection`. -/
def notionAgentOps : AgentOps NotionEnv Unit :=
  { testConnection := NotionAIAgent.test_notion_connection
    getStatus? := none }

end AutomationAgents

namespace AutomationAgents

/-! ### Concrete environments for the scenario theorems -/

/-- An Ollama gateway that answers every prompt with the given text. -/
def aiEnvOf (text : String) : OllamaEnv :=
  { defaultModel := "llama2", post := fun _ _ => .response 200 (.ok text) }

/-- A gateway whose endpoint answers status 500 (body extraction fails). -/
def aiEnv500 : OllamaEnv :=
  { defaultModel := "llama2", post := fun _ _ => .response 500 (.error "KeyError") }

/-- Shorthand for a search-result track. -/
def mkTrack (i nm ar : String) : Track :=
  { id := i, name := nm, artist := ar, album := "Album", durationMs := 200, popularity := 50 }

/-- A benign Spotify environment: empty AI answer, empty provider results,
successful user / playlist-create / add calls. -/
def baseSpotifyEnv : SpotifyEnv :=
  { ollama := aiEnvOf ""
    today := "2026-10-12"
    currentUser := .ok { id := "user1", displayName := "User One", followers := 5,
                         country := "US", product := some "premium" }
    currentPlayback := .ok none
    search := fun _ _ => .ok []
    topTracks := .ok []
    recommendations := fun _ _ _ _ => .ok []
    userPlaylistCreate := fun _ nm _ desc =>
      .ok { id := "p1", name := nm, url := "https://example.com/p1", description := desc }
    playlistAddItems := fun _ _ => .ok () }

/-- The AI emits the same well-formed line twice; both searches hit the same
track id. -/
def envDupLines : SpotifyEnv :=
  { baseSpotifyEnv with
    ollama := aiEnvOf "- \"Alpha\" by Beta\n- \"Alpha\" by Beta"
    search := fun q _ =>
      if q = "Alpha Beta" then .ok [mkTrack "t1" "Alpha" "Beta"] else .ok [] }

/-- One good AI line; the playlist-add primitive raises. -/
def envAddFail : SpotifyEnv :=
  { baseSpotifyEnv with
    ollama := aiEnvOf "- \"Alpha\" by Beta"
    search := fun q _ =>
      if q = "Alpha Beta" then .ok [mkTrack "t1" "Alpha" "Beta"] else .ok []
    playlistAddItems := fun _ _ => .error "add failed" }

/-- One good AI line; the playlist-create primitive raises. -/
def envCreateFail : SpotifyEnv :=
  { baseSpotifyEnv with
    ollama := aiEnvOf "- \"Alpha\" by Beta"
    search := fun q _ =>
      if q = "Alpha Beta" then .ok [mkTrack "t1" "Alpha" "Beta"] else .ok []
    userPlaylistCreate := fun _ _ _ _ => .error "create failed" }

/-- The scenario of spec section 8: three well-formed lines, one line with
the separator but no bullet, one bulleted line without the separator. -/
def envChill : SpotifyEnv :=
  { baseSpotifyEnv with
    ollama := aiEnvOf ("- \"Song One\" by Artist One\n- \"Song Two\" by Artist Two\n" ++
      "- \"Song Three\" by Artist Three\nA line passed by without a bullet\n- Malformed line")
    search := fun q _ =>
      if q = "Song One Artist One" then .ok [mkTrack "t1" "Song One" "Artist One"]
      else if q = "Song Two Artist Two" then .ok [mkTrack "t2" "Song Two" "Artist Two"]
      else if q = "Song Three Artist Three" then .ok [mkTrack "t3" "Song Three" "Artist Three"]
      else .ok [] }

/-- A Gmail provider all of whose calls raise a non-`HttpError` exception. -/
def gmailFailingEnv (msg : String) : GmailEnv :=
  { getProfile := .error (.other msg)
    listMessages := fun _ _ => .error (.other msg)
    getMessage := fun _ => .error (.other msg) }

/-- A Gmail provider whose listing raises `HttpError`. -/
def gmailHttpFailEnv : GmailEnv :=
  { getProfile := .ok { emailAddress := "a@b.c", messagesTotal := 1, threadsTotal := 1 }
    listMessages := fun _ _ => .error (.httpError "HttpError 503")
    getMessage := fun _ => .error (.httpError "HttpError 503") }

/-- A Gmail provider whose listing raises a connection-level (non-HTTP)
exception. -/
def gmailOtherFailEnv : GmailEnv :=
  { getProfile := .ok { emailAddress := "a@b.c", messagesTotal := 1, threadsTotal := 1 }
    listMessages := fun _ _ => .error (.other "ConnectionResetError")
    getMessage := fun _ => .error (.other "ConnectionResetError") }

/-- A Spotify provider all of whose calls raise. -/
def spotifyFailingEnv (msg : String) : SpotifyEnv :=
  { baseSpotifyEnv with
    currentUser := .error msg
    currentPlayback := .error msg
    search := fun _ _ => .error msg
    topTracks := .error msg
    recommendations := fun _ _ _ _ => .error msg
    userPlaylistCreate := fun _ _ _ _ => .error msg
    playlistAddItems := fun _ _ => .error msg }

/-- A Notion provider all of whose calls raise. -/
def notionFailingEnv (msg : String) : NotionEnv :=
  { search := .error msg, tags := .exn msg }

end AutomationAgents


namespace AutomationAgents

/-! ### Trace-shape lemmas -/

open SpotifyAgent

/-- A trace with only search calls has no recommendations invocation. -/
lemma recCallsOf_eq_nil (t : List SpCall)
    (h : ∀ c ∈ t, ∃ q n, c = SpCall.search q n) : recCallsOf t = [] := by
  rw [recCallsOf, List.filter_eq_nil_iff]
  intro c hc
  obtain ⟨q, n, rfl⟩ := h c hc
  simp [isRecCall]

/-- A trace with only search calls has no playlist-add invocation. -/
lemma addCallsOf_eq_nil (t : List SpCall)
    (h : ∀ c ∈ t, ∃ q n, c = SpCall.search q n) : addCallsOf t = [] := by
  rw [addCallsOf, List.filter_eq_nil_iff]
  intro c hc
  obtain ⟨q, n, rfl⟩ := h c hc
  simp [isAddCall]

/-- An add call cannot belong to a trace whose add projection is empty. -/
lemma addItems_not_mem (t : List SpCall) (h : addCallsOf t = [])
    (pid : String) (ts : List String) : SpCall.addItems pid ts ∉ t := by
  intro hmem
  have := (List.filter_eq_nil_iff.mp h) _ hmem
  simp [isAddCall] at this

/-- `search_tracks` invokes exactly the search primitive. -/
lemma search_tracks_calls (env : SpotifyEnv) (q : String) (n : Nat) :
    (search_tracks env q n).2 = [SpCall.search q n] := by
  rcases h : env.search q n with e | ts <;> simp [search_tracks, h]

/-- Each parsed line issues at most one provider call, always a search. -/
lemma suggestLine_search (env : SpotifyEnv) (line : String) :
    ∀ c ∈ (suggestLine env line).2, ∃ q n, c = SpCall.search q n := by
  intro c hc
  simp only [suggestLine] at hc
  cases hm : startsMarker (pyStrip line.data) with
  | false => simp [hm] at hc
  | true =>
    simp only [hm, if_true] at hc
    split at hc
    · split at hc <;>
        · simp only [search_tracks_calls, List.mem_singleton] at hc
          exact ⟨_, _, hc⟩
    · simp at hc

/-- The whole parsing loop issues only search calls. -/
lemma suggestLines_search (env : SpotifyEnv) (ls : List String) :
    ∀ c ∈ (suggestLines env ls).2, ∃ q n, c = SpCall.search q n := by
  induction ls with
  | nil => intro c hc; simp [suggestLines] at hc
  | cons line rest ih =>
    intro c hc
    rw [suggestLines] at hc
    simp only [List.mem_append] at hc
    rcases hc with hc | hc
    · exact suggestLine_search env line c hc
    · exact ih c hc

/-- Stage 1 issues only search calls. -/
lemma getAiTrackSuggestions_search (env : SpotifyEnv) (mood : String) :
    ∀ c ∈ (getAiTrackSuggestions env mood).2, ∃ q n, c = SpCall.search q n := by
  rw [getAiTrackSuggestions]
  exact suggestLines_search env _

/-- Every mood maps to a non-empty (hence truthy) genre list. -/
lemma moodGenres_truthy (mood : String) :
    seedTruthy (some (moodGenres mood)) = true := by
  rw [moodGenres]
  rcases hf : genre_map.find? (fun g => g.1 == pyLower mood) with _ | g
  · simp only [hf]
    rfl
  · simp only [hf]
    have hg := List.mem_of_find?_eq_some hf
    have hall : ∀ g ∈ genre_map, seedTruthy (some g.2) = true := by decide
    exact hall g hg

/-- Stage 2 invokes the recommendations primitive exactly once, seeded by the
mood's genres, for the requested count. -/
lemma getGenreRecommendations_calls (env : SpotifyEnv) (mood : String) (lim : Int) :
    (getGenreRecommendations env mood lim).2 =
      [SpCall.recommendations none none (some (moodGenres mood)) lim] := by
  have htr : (seedTruthy none || seedTruthy none || seedTruthy (some (moodGenres mood))) = true := by
    rw [moodGenres_truthy]
    simp [seedTruthy]
  simp only [getGenreRecommendations, get_recommendations, htr, if_true]
  rcases h : env.recommendations none none (some (moodGenres mood)) lim with e | ts <;>
    simp [h]

/-- `create_playlist` never invokes the recommendations primitive. -/
lemma create_playlist_recCalls (env : SpotifyEnv) (nm d : String) (pb : Bool) :
    recCallsOf (create_playlist env nm d pb).2 = [] := by
  rcases hu : env.currentUser with e | u
  · simp [create_playlist, hu, recCallsOf, isRecCall]
  · rcases hc : env.userPlaylistCreate u.id nm pb d with e | p <;>
      simp [create_playlist, hu, hc, recCallsOf, isRecCall]

/-- `create_playlist` never invokes the playlist-add primitive. -/
lemma create_playlist_addCalls (env : SpotifyEnv) (nm d : String) (pb : Bool) :
    addCallsOf (create_playlist env nm d pb).2 = [] := by
  rcases hu : env.currentUser with e | u
  · simp [create_playlist, hu, addCallsOf, isAddCall]
  · rcases hc : env.userPlaylistCreate u.id nm pb d with e | p <;>
      simp [create_playlist, hu, hc, addCallsOf, isAddCall]

/-- `add_tracks_to_playlist` invokes exactly the add primitive. -/
lemma add_tracks_calls (env : SpotifyEnv) (pid : String) (ts : List String) :
    (add_tracks_to_playlist env pid ts).2 = [SpCall.addItems pid ts] := by
  rcases h : env.playlistAddItems pid ts with e | u <;> simp [add_tracks_to_playlist, h]

/-- The recommendation invocations of Stages 1-2: none when Stage 1 yields at
least 10 ids, exactly one (seeded by the mood genres, for
`limit - count`) otherwise. -/
lemma moodTrackIds_recCalls (env : SpotifyEnv) (mood : String) (limit : Nat) :
    recCallsOf (moodTrackIds env mood limit).2 =
      if (getAiTrackSuggestions env mood).1.length < 10 then
        [SpCall.recommendations none none (some (moodGenres mood))
          ((limit : Int) - (getAiTrackSuggestions env mood).1.length)]
      else [] := by
  rw [moodTrackIds]
  by_cases h : (getAiTrackSuggestions env mood).1.length < 10
  · rw [if_pos h, if_pos h]
    simp only [recCallsOf, List.filter_append]
    rw [← recCallsOf, ← recCallsOf,
      recCallsOf_eq_nil _ (getAiTrackSuggestions_search env mood),
      getGenreRecommendations_calls]
    simp [recCallsOf, isRecCall]
  · rw [if_neg h, if_neg h]
    exact recCallsOf_eq_nil _ (getAiTrackSuggestions_search env mood)

/-- Stages 1-2 never invoke the playlist-add primitive. -/
lemma moodTrackIds_addCalls (env : SpotifyEnv) (mood : String) (limit : Nat) :
    addCallsOf (moodTrackIds env mood limit).2 = [] := by
  rw [moodTrackIds]
  by_cases h : (getAiTrackSuggestions env mood).1.length < 10
  · rw [if_pos h]
    simp only [addCallsOf, List.filter_append]
    rw [← addCallsOf, ← addCallsOf,
      addCallsOf_eq_nil _ (getAiTrackSuggestions_search env mood),
      getGenreRecommendations_calls]
    simp [addCallsOf, isAddCall]
  · rw [if_neg h]
    exact addCallsOf_eq_nil _ (getAiTrackSuggestions_search env mood)

end AutomationAgents

namespace AutomationAgents

open SpotifyAgent

/-- Filtering distributes over trace concatenation (recommendations). -/
lemma recCallsOf_append (a b : List SpCall) :
    recCallsOf (a ++ b) = recCallsOf a ++ recCallsOf b := by
  simp [recCallsOf, List.filter_append]

/-- Filtering distributes over trace concatenation (adds). -/
lemma addCallsOf_append (a b : List SpCall) :
    addCallsOf (a ++ b) = addCallsOf a ++ addCallsOf b := by
  simp [addCallsOf, List.filter_append]

/-- A lone add invocation is no recommendations invocation. -/
lemma recCallsOf_addItems (pid : String) (ts : List String) :
    recCallsOf [SpCall.addItems pid ts] = [] := by
  simp [recCallsOf, isRecCall]

/-- The recommendation invocations of a whole synthesis run are exactly those
of Stages 1-2: creation and addition contribute none. -/
lemma create_mood_playlist_recCalls (env : SpotifyEnv) (mood : String) (limit : Nat) :
    recCallsOf (create_mood_playlist env mood limit).2 =
      recCallsOf (moodTrackIds env mood limit).2 := by
  simp only [create_mood_playlist]
  split
  · rfl
  · rcases hc : (create_playlist env (moodPlaylistName env mood)
        (moodPlaylistDescription mood)).1 with e | info
    · simp only [hc]
      rw [recCallsOf_append, create_playlist_recCalls, List.append_nil]
    · simp only [hc]
      rw [recCallsOf_append, recCallsOf_append, create_playlist_recCalls, add_tracks_calls,
        recCallsOf_addItems, List.append_nil, List.append_nil]

/-- Any add invocation of a synthesis run adds exactly the assembled id list
truncated to the requested limit. -/
lemma create_mood_playlist_addItems_mem (env : SpotifyEnv) (mood : String)
    (limit : Nat) (pid : String) (ts : List String)
    (hmem : SpCall.addItems pid ts ∈ (create_mood_playlist env mood limit).2) :
    ts = (moodTrackIds env mood limit).1.take limit := by
  simp only [create_mood_playlist] at hmem
  split at hmem
  · exact absurd hmem (addItems_not_mem _ (moodTrackIds_addCalls env mood limit) _ _)
  · rcases hc : (create_playlist env (moodPlaylistName env mood)
        (moodPlaylistDescription mood)).1 with e | info
    · simp only [hc] at hmem
      rcases List.mem_append.mp hmem with h | h
      · exact absurd h (addItems_not_mem _ (moodTrackIds_addCalls env mood limit) _ _)
      · exact absurd h (addItems_not_mem _ (create_playlist_addCalls env _ _ _) _ _)
    · simp only [hc, add_tracks_calls] at hmem
      rcases List.mem_append.mp hmem with h | h
      · rcases List.mem_append.mp h with h2 | h2
        · exact absurd h2 (addItems_not_mem _ (moodTrackIds_addCalls env mood limit) _ _)
        · exact absurd h2 (addItems_not_mem _ (create_playlist_addCalls env _ _ _) _ _)
      · rw [List.mem_singleton] at h
        injection h with h1 h2

/-- The dedup loop preserves `Nodup`. -/
lemma dedupAppend_nodup (recs : List String) :
    ∀ acc : List String, acc.Nodup → (dedupAppend acc recs).Nodup := by
  induction recs with
  | nil => intro acc h; simpa [dedupAppend] using h
  | cons r rs ih =>
    intro acc h
    have hstep : dedupAppend acc (r :: rs) =
        dedupAppend (if r ∈ acc then acc else acc ++ [r]) rs := rfl
    rw [hstep]
    by_cases hr : r ∈ acc
    · rw [if_pos hr]; exact ih acc h
    · rw [if_neg hr]
      apply ih
      simp [List.nodup_append, h, hr]

/-- Stage 2 additions keep the id list `Nodup` whenever Stage 1's yield
was itself duplicate-free. -/
lemma moodTrackIds_nodup (env : SpotifyEnv) (mood : String) (limit : Nat)
    (h : (getAiTrackSuggestions env mood).1.Nodup) :
    (moodTrackIds env mood limit).1.Nodup := by
  simp only [moodTrackIds]
  split
  · exact dedupAppend_nodup _ _ h
  · exact h

end AutomationAgents

namespace AutomationAgents

open SpotifyAgent

/-- C7: in every synthesis run, the genre-fallback recommendation primitive is
never invoked when Stage 1 yields 10 or more track ids, and when Stage 1
yields fewer than 10 ids it is invoked (exactly once) requesting
`needed = limit - (Stage 1 count)` recommendations, seeded by the mood's
genres. -/
theorem C7_fallback_iff_fewer_than_ten (env : SpotifyEnv) (mood : String) (limit : Nat) :
    recCallsOf (create_mood_playlist env mood limit).2 =
      if (getAiTrackSuggestions env mood).1.length < 10 then
        [SpCall.recommendations none none (some (moodGenres mood))
          ((limit : Int) - (getAiTrackSuggestions env mood).1.length)]
      else [] := by
  rw [create_mood_playlist_recCalls, moodTrackIds_recCalls]

/-- C10: for a requested limit below 10 and a Stage-1 yield k with
limit ≤ k < 10, the genre-fallback recommendation primitive is still invoked
and is passed the non-positive count `limit - k` (the shortfall is not floored
at zero before the provider call). -/
theorem C10_negative_shortfall_passed (env : SpotifyEnv) (mood : String) (limit k : Nat)
    (hk : (getAiTrackSuggestions env mood).1.length = k)
    (hlim : limit < 10) (hlk : limit ≤ k) (hk10 : k < 10) :
    SpCall.recommendations none none (some (moodGenres mood)) ((limit : Int) - k) ∈
      (create_mood_playlist env mood limit).2 ∧
    ((limit : Int) - k) ≤ 0 := by
  constructor
  · have h10 : (getAiTrackSuggestions env mood).1.length < 10 := by rw [hk]; exact hk10
    have htr := create_mood_playlist_recCalls env mood limit
    rw [moodTrackIds_recCalls, if_pos h10, hk] at htr
    have hm : SpCall.recommendations none none (some (moodGenres mood)) ((limit : Int) - k) ∈
        recCallsOf (create_mood_playlist env mood limit).2 := by
      rw [htr]; exact List.mem_singleton_self _
    rw [recCallsOf] at hm
    exact List.mem_of_mem_filter hm
  · omega

/-- C10 witness: with `envChill` and mood "chill", Stage 1 yields 3 ids; at
requested limit 2 the fallback is passed -1. -/
theorem C10_witness :
    SpCall.recommendations none none (some (moodGenres "chill")) ((2 : Int) - 3) ∈
      (create_mood_playlist envChill "chill" 2).2 ∧
    ((2 : Int) - 3) ≤ 0 :=
  C10_negative_shortfall_passed envChill "chill" 2 3 (by decide) (by decide) (by decide)
    (by decide)

/-- C9: the Stage-1 parser considers a line only if the stripped line begins
with a dash or the hard-coded bullet sequence: a line containing the
separator `" by "` but lacking such a marker issues no track search and
contributes no candidate id. -/
theorem C9_no_marker_no_search (env : SpotifyEnv) (line : String)
    (hsep : (splitFirst sepBy line.data).isSome = true)
    (hmark : startsMarker (pyStrip line.data) = false) :
    suggestLine env line = ([], []) := by
  simp [suggestLine, hmark]

/-- C9 witness: the unbulleted line `"Song" by Artist` contains the separator
yet yields no search and no candidate. -/
theorem C9_witness :
    (splitFirst sepBy ("\"Song\" by Artist" : String).data).isSome = true ∧
    startsMarker (pyStrip ("\"Song\" by Artist" : String).data) = false ∧
    suggestLine baseSpotifyEnv "\"Song\" by Artist" = ([], []) :=
  ⟨by decide, by decide,
    C9_no_marker_no_search baseSpotifyEnv "\"Song\" by Artist" (by decide) (by decide)⟩

/-- C8: for mood "chill" with an AI response of 3 well-formed lines and 2
malformed lines, Stage 1 yields exactly 3 candidate ids, and the genre
fallback is invoked with seed genres ambient/jazz/indie-folk for the
shortfall `limit - 3`. -/
theorem C8_chill_scenario :
    (getAiTrackSuggestions envChill "chill").1 = ["t1", "t2", "t3"] ∧
    moodGenres "chill" = ["ambient", "jazz", "indie-folk"] ∧
    recCallsOf (create_mood_playlist envChill "chill" 20).2 =
      [SpCall.recommendations none none (some ["ambient", "jazz", "indie-folk"])
        ((20 : Int) - 3)] :=
  ⟨by decide, by decide, by decide⟩

end AutomationAgents

namespace AutomationAgents

open SpotifyAgent

/-- C1 counterexample: a synthesis run in which the AI emits the same
well-formed line twice passes the duplicated list `["t1", "t1"]` to the
track-addition step, so the final track id list is not duplicate-free. -/
theorem C1_counterexample_duplicate_ids :
    SpCall.addItems "p1" ["t1", "t1"] ∈ (create_mood_playlist envDupLines "happy" 20).2 ∧
    ¬ (["t1", "t1"] : List String).Nodup :=
  ⟨by decide, by decide⟩

/-- C1 (amended): the final track id list passed to track addition always has
length at most the requested limit, and it contains no duplicate ids provided
Stage 1's own yield was duplicate-free (Stage 2 ids are always deduplicated
against the ids already present, but Stage 1 does not deduplicate its own
yield). -/
theorem C1_amended_bounded_and_conditionally_nodup (env : SpotifyEnv) (mood : String)
    (limit : Nat) (pid : String) (ts : List String)
    (hmem : SpCall.addItems pid ts ∈ (create_mood_playlist env mood limit).2) :
    ts.length ≤ limit ∧ ((getAiTrackSuggestions env mood).1.Nodup → ts.Nodup) := by
  have hts := create_mood_playlist_addItems_mem env mood limit pid ts hmem
  subst hts
  constructor
  · rw [List.length_take]
    exact min_le_left _ _
  · intro h1
    exact List.Nodup.sublist (List.take_sublist _ _) (moodTrackIds_nodup env mood limit h1)

/-- C1 witness: the duplicate-free single-track run of `envAddFail` satisfies
the amended bound and dedup property. -/
theorem C1_amended_witness :
    (["t1"] : List String).length ≤ 20 ∧
    ((getAiTrackSuggestions envAddFail "happy").1.Nodup → (["t1"] : List String).Nodup) :=
  C1_amended_bounded_and_conditionally_nodup envAddFail "happy" 20 "p1" ["t1"] (by decide)

/-- C2 counterexample: a run in which playlist creation succeeds and the
track-addition call fails still reports `tracks_added = 1` (the attempted
count), not 0. -/
theorem C2_counterexample_tracks_added_not_zero :
    envAddFail.playlistAddItems "p1" ["t1"] = .error "add failed" ∧
    (create_mood_playlist envAddFail "happy" 20).1 =
      .created { id := "p1", name := "Happy Vibes - 2026-10-12",
                 url := "https://example.com/p1",
                 description := "AI-generated playlist for a happy mood." } 1 ∧
    (1 : Nat) ≠ 0 :=
  ⟨rfl, by decide, by decide⟩

/-- C2 (amended): when playlist creation succeeds and the subsequent
track-addition call fails, `create_mood_playlist` still returns the created
playlist's record (carrying its id and url), with `tracks_added` equal to the
number of ids attempted (the truncated final list's length), not 0. -/
theorem C2_amended_tracks_added_attempted_count (env : SpotifyEnv) (mood : String)
    (limit : Nat) (info : PlaylistInfo) (cs : List SpCall) (m : String)
    (hne : (moodTrackIds env mood limit).1 ≠ [])
    (hcreate : create_playlist env (moodPlaylistName env mood)
      (moodPlaylistDescription mood) = (.ok info, cs))
    (hadd : env.playlistAddItems info.id ((moodTrackIds env mood limit).1.take limit) =
      .error m) :
    (create_mood_playlist env mood limit).1 =
      .created info ((moodTrackIds env mood limit).1.take limit).length := by
  have hE : (moodTrackIds env mood limit).1.isEmpty = false := by
    rcases hl : (moodTrackIds env mood limit).1 with _ | ⟨a, as⟩
    · exact absurd hl hne
    · rfl
  have hc1 : (create_playlist env (moodPlaylistName env mood)
      (moodPlaylistDescription mood)).1 = .ok info := by rw [hcreate]
  simp only [create_mood_playlist, hE, Bool.false_eq_true, if_false, hc1]

/-- C2 witness: instantiated on `envAddFail`, where creation succeeds and the
add call raises, `tracks_added` is 1. -/
theorem C2_amended_witness :
    (create_mood_playlist envAddFail "happy" 20).1 =
      .created { id := "p1", name := "Happy Vibes - 2026-10-12",
                 url := "https://example.com/p1",
                 description := "AI-generated playlist for a happy mood." } 1 := by
  have h := C2_amended_tracks_added_attempted_count envAddFail "happy" 20
    { id := "p1", name := "Happy Vibes - 2026-10-12",
      url := "https://example.com/p1",
      description := "AI-generated playlist for a happy mood." }
    [SpCall.currentUser,
     SpCall.playlistCreate "user1" "Happy Vibes - 2026-10-12" false
       "AI-generated playlist for a happy mood."]
    "add failed" (by decide) (by decide) (by decide)
  have h2 : ((moodTrackIds envAddFail "happy" 20).1.take 20).length = 1 := by decide
  rw [h2] at h
  exact h

/-- C3: when the playlist-creation call fails (returns an error record
carrying no id), `create_mood_playlist` returns that failure and the
track-addition primitive is never invoked. -/
theorem C3_create_failure_propagates_no_add (env : SpotifyEnv) (mood : String)
    (limit : Nat) (e : String) (cs : List SpCall)
    (hne : (moodTrackIds env mood limit).1 ≠ [])
    (hcreate : create_playlist env (moodPlaylistName env mood)
      (moodPlaylistDescription mood) = (.error e, cs)) :
    (create_mood_playlist env mood limit).1 = .failure e ∧
    addCallsOf (create_mood_playlist env mood limit).2 = [] := by
  have hE : (moodTrackIds env mood limit).1.isEmpty = false := by
    rcases hl : (moodTrackIds env mood limit).1 with _ | ⟨a, as⟩
    · exact absurd hl hne
    · rfl
  have hc1 : (create_playlist env (moodPlaylistName env mood)
      (moodPlaylistDescription mood)).1 = .error e := by rw [hcreate]
  constructor
  · simp only [create_mood_playlist, hE, Bool.false_eq_true, if_false, hc1]
  · simp only [create_mood_playlist, hE, Bool.false_eq_true, if_false, hc1]
    rw [addCallsOf_append, moodTrackIds_addCalls, create_playlist_addCalls]
    rfl

/-- C3 witness: instantiated on `envCreateFail`, the run returns the creation
failure and issues no add call. -/
theorem C3_witness :
    (create_mood_playlist envCreateFail "happy" 20).1 = .failure "create failed" ∧
    addCallsOf (create_mood_playlist envCreateFail "happy" 20).2 = [] :=
  C3_create_failure_propagates_no_add envCreateFail "happy" 20 "create failed"
    [SpCall.currentUser,
     SpCall.playlistCreate "user1" "Happy Vibes - 2026-10-12" false
       "AI-generated playlist for a happy mood."]
    (by decide) (by decide)

end AutomationAgents

namespace AutomationAgents

/-- C4 counterexample: the Workspace variant (`NotionAIAgent`) defines no
status operation at all — its capability record's status slot is empty — so
not every variant supplies the full {testConnection, getStatus} set. -/
theorem C4_counterexample_notion_lacks_get_status :
    notionAgentOps.getStatus? = (none : Option (NotionEnv → Unit)) := rfl

/-- C4 (amended): the Mail and MusicStreaming variants supply both
capabilities — a connectivity test returning false on any provider failure
without propagating it, and a status query returning an error-tagged record
on failure; the Workspace variant supplies only connectivity tests (also
returning false on failure) and no status operation. -/
theorem C4_amended_capability_set (msg : String) :
    GmailAgent.test_connection (gmailFailingEnv msg) = false ∧
    GmailAgent.get_status (gmailFailingEnv msg) = .error msg ∧
    SpotifyAgent.test_connection (spotifyFailingEnv msg) = false ∧
    SpotifyAgent.get_status (spotifyFailingEnv msg) = .error msg ∧
    NotionAIAgent.test_notion_connection (notionFailingEnv msg) = false ∧
    NotionAIAgent.test_ollama_connection (notionFailingEnv msg) = false ∧
    gmailAgentOps.getStatus? = some GmailAgent.get_status ∧
    spotifyAgentOps.getStatus? = some SpotifyAgent.get_status ∧
    notionAgentOps.getStatus? = (none : Option (NotionEnv → Unit)) :=
  ⟨rfl, rfl, rfl, rfl, rfl, rfl, rfl, rfl, rfl⟩

/-- C5: for every prompt and optional model argument, the AI gateway returns
a string and never raises; in particular, when the HTTP response status is
not 200, both `BaseAgent.ask_ai` and `NotionAIAgent.ask_ai` return a string
containing that status code. -/
theorem C5_ask_ai_reports_status_code (env : OllamaEnv) (prompt m : String)
    (model? : Option String) (status : Nat) (body : Except String String)
    (hpost : ∀ mo, env.post mo prompt = .response status body)
    (hstatus : status ≠ 200) :
    (∃ pre suf, BaseAgent.ask_ai env prompt model? = pre ++ toString status ++ suf) ∧
    (∃ pre suf, NotionAIAgent.ask_ai env prompt m = pre ++ toString status ++ suf) := by
  constructor
  · refine ⟨"AI request failed with status ", "", ?_⟩
    simp [BaseAgent.ask_ai, hpost, hstatus]
  · refine ⟨"Error: ", "", ?_⟩
    simp [NotionAIAgent.ask_ai, hpost, hstatus]

/-- C5 witness: against an endpoint answering 500, both gateways answer with
a string containing "500". -/
theorem C5_witness :
    (∃ pre suf, BaseAgent.ask_ai aiEnv500 "hello" none = pre ++ toString 500 ++ suf) ∧
    (∃ pre suf, NotionAIAgent.ask_ai aiEnv500 "hello" "llama2" =
      pre ++ toString 500 ++ suf) :=
  C5_ask_ai_reports_status_code aiEnv500 "hello" "llama2" none 500 (.error "KeyError")
    (fun _ => rfl) (by decide)

/-- C6 counterexample: a non-`HttpError` exception (a connection-level error)
raised by the provider inside `get_recent_emails` is not caught: the
operation propagates it instead of returning a typed empty value. -/
theorem C6_counterexample_non_http_error_propagates :
    GmailAgent.get_recent_emails gmailOtherFailEnv 10 "" =
      .error (.other "ConnectionResetError") := rfl

/-- C6 (amended): public read operations convert provider failures to typed
empty results — `get_recent_emails` for `HttpError`, `search_tracks` and
`get_databases` for every exception — but `get_recent_emails` catches only
`HttpError`: any other exception raised by its provider calls propagates to
the caller. -/
theorem C6_amended_error_conversion (menv menv2 : GmailEnv) (senv : SpotifyEnv)
    (nenv : NotionEnv) (mr mr2 lim : Nat) (q q2 qq : String)
    (msg msg2 msg3 msg4 : String)
    (hlist : menv.listMessages mr q = .error (.httpError msg))
    (hlist2 : menv2.listMessages mr2 q2 = .error (.other msg2))
    (hsearch : senv.search qq lim = .error msg3)
    (hnsearch : nenv.search = .error msg4) :
    GmailAgent.get_recent_emails menv mr q = .ok [] ∧
    GmailAgent.get_recent_emails menv2 mr2 q2 = .error (.other msg2) ∧
    (SpotifyAgent.search_tracks senv qq lim).1 = [] ∧
    NotionAIAgent.get_databases nenv = [] := by
  refine ⟨?_, ?_, ?_, ?_⟩
  · rw [GmailAgent.get_recent_emails, GmailAgent.get_recent_emails_body, hlist]
  · rw [GmailAgent.get_recent_emails, GmailAgent.get_recent_emails_body, hlist2]
  · rw [SpotifyAgent.search_tracks, hsearch]
  · rw [NotionAIAgent.get_databases, hnsearch]

/-- C6 witness: instantiated on the concrete failing Gmail, Spotify and
Notion environments. -/
theorem C6_amended_witness :
    GmailAgent.get_recent_emails gmailHttpFailEnv 10 "" = .ok [] ∧
    GmailAgent.get_recent_emails gmailOtherFailEnv 7 "q" =
      .error (.other "ConnectionResetError") ∧
    (SpotifyAgent.search_tracks (spotifyFailingEnv "boom") "q" 10).1 = [] ∧
    NotionAIAgent.get_databases (notionFailingEnv "boom") = [] :=
  C6_amended_error_conversion gmailHttpFailEnv gmailOtherFailEnv
    (spotifyFailingEnv "boom") (notionFailingEnv "boom") 10 7 10 "" "q" "q"
    "HttpError 503" "ConnectionResetError" "boom" "boom" rfl rfl rfl rfl

end AutomationAgents
